/-
Verification of the log-parsing and RMS-correlation core of the
astro-session-viewer repository (src/parsers.py).

Conventions of the embedding:
* Python floats are modelled as rationals (ℚ) wherever the program stores
  parsed data, and as reals (ℝ) for the derived RMS statistics, so that
  sqrt is exact rather than floating point.
* Python datetimes are modelled as rational "epoch seconds"; the
  conversion from a calendar timestamp uses the standard days-from-civil
  algorithm.  datetime.timestamp() / datetime.fromtimestamp are then the
  identity, which preserves all comparisons the program performs.
* Fallible Python conversions (float(), int()) are modelled as Option.
* Each parser's mutable object state is an explicit state record, and
  parse is a fold of the per-line step function over the list of
  (already newline-split) lines of the file.
-/
import Mathlib

namespace AstroSessionViewer

/- The Batteries rational-number arithmetic is marked irreducible, which
blocks the decide tactic on the concrete rational computations of the
test fixtures; restore the default transparency. -/
attribute [local semireducible] Rat.add Rat.sub Rat.mul Rat.inv Rat.ofScientific

/-! ### Numeric string helpers (Python float()/int() over regex captures) -/

/-- Whitespace characters stripped by str.strip() / tolerated by float(). -/
def isWS (c : Char) : Bool :=
  c = ' ' ∨ c = '\t' ∨ c = '\n' ∨ c = '\r'

/-- Strip leading and trailing whitespace from a character list. -/
def stripWS (cs : List Char) : List Char :=
  ((cs.dropWhile isWS).reverse.dropWhile isWS).reverse

/-- Numeric value of a list of decimal digit characters. -/
def digitsToNat (cs : List Char) : ℕ :=
  cs.foldl (fun a c => a * 10 + (c.toNat - 48)) 0

/-- Split a character list into its maximal leading digit run and the rest. -/
def spanDigits (cs : List Char) : List Char × List Char :=
  (cs.takeWhile Char.isDigit, cs.dropWhile Char.isDigit)

/-- Power of ten with an integer exponent, as a rational. -/
def pow10 (e : ℤ) : ℚ :=
  if 0 ≤ e then ((10 : ℚ) ^ e.toNat) else ((10 : ℚ) ^ (-e).toNat)⁻¹

/-- Parse an optional exponent suffix (must consume the whole remainder). -/
def pyExpPart : List Char → Option ℤ
  | [] => some 0
  | c :: rest =>
    if c = 'e' ∨ c = 'E' then
      match rest with
      | '-' :: ds =>
        if ds ≠ [] ∧ ds.all Char.isDigit then some (-(digitsToNat ds : ℤ)) else none
      | '+' :: ds =>
        if ds ≠ [] ∧ ds.all Char.isDigit then some ((digitsToNat ds : ℤ)) else none
      | ds =>
        if ds ≠ [] ∧ ds.all Char.isDigit then some ((digitsToNat ds : ℤ)) else none
    else none

/-- Parse an unsigned Python float literal (digits, optional dot, optional
exponent), requiring the whole input to be consumed. -/
def pyFloatPos (cs : List Char) : Option ℚ :=
  let ip := (spanDigits cs).1
  let r1 := (spanDigits cs).2
  match r1 with
  | '.' :: r2 =>
    let fp := (spanDigits r2).1
    let r3 := (spanDigits r2).2
    if ip = [] ∧ fp = [] then none
    else
      match pyExpPart r3 with
      | some e =>
        some (((digitsToNat ip : ℚ) + (digitsToNat fp : ℚ) / (10 : ℚ) ^ fp.length) * pow10 e)
      | none => none
  | r =>
    if ip = [] then none
    else
      match pyExpPart r with
      | some e => some ((digitsToNat ip : ℚ) * pow10 e)
      | none => none

/-- Model of Python float(str): optional sign after stripping whitespace. -/
def pyFloatQ (cs : List Char) : Option ℚ :=
  match stripWS cs with
  | '-' :: r => (pyFloatPos r).map Neg.neg
  | '+' :: r => pyFloatPos r
  | r => pyFloatPos r

/-- Model of Python int(str): optional sign, decimal digits only. -/
def pyIntZ (cs : List Char) : Option ℤ :=
  match stripWS cs with
  | '-' :: ds =>
    if ds ≠ [] ∧ ds.all Char.isDigit then some (-(digitsToNat ds : ℤ)) else none
  | '+' :: ds =>
    if ds ≠ [] ∧ ds.all Char.isDigit then some ((digitsToNat ds : ℤ)) else none
  | ds =>
    if ds ≠ [] ∧ ds.all Char.isDigit then some ((digitsToNat ds : ℤ)) else none

/-! ### Calendar timestamps as rational epoch seconds -/

/-- Days from 1970-01-01 (civil calendar, Hinnant's algorithm). -/
def daysFromCivil (y m d : ℤ) : ℤ :=
  let y' := if m ≤ 2 then y - 1 else y
  let era := (if 0 ≤ y' then y' else y' - 399) / 400
  let yoe := y' - era * 400
  let doy := (153 * (if 2 < m then m - 3 else m + 9) + 2) / 5 + d - 1
  let doe := yoe * 365 + yoe / 4 - yoe / 100 + doy
  era * 146097 + doe - 719468

/-- Epoch seconds of a calendar timestamp with a rational subsecond part. -/
def toEpoch (y mo d h mi s : ℕ) (frac : ℚ) : ℚ :=
  ((daysFromCivil y mo d : ℚ)) * 86400 + h * 3600 + mi * 60 + s + frac

/-! ### Data model (the dataclasses of parsers.py) -/

/-- Single guiding frame data from PHD2. -/
structure GuidingFrame where
  frame : ℤ
  time : ℚ
  dx : ℚ
  dy : ℚ
  ra_raw : ℚ
  dec_raw : ℚ
  ra_guide : ℚ
  dec_guide : ℚ
  ra_duration : ℤ
  dec_duration : ℤ
  ra_direction : String
  dec_direction : String
  star_mass : ℚ
  snr : ℚ
  error_code : ℤ
deriving DecidableEq, Repr

/-- A single guiding session from PHD2. -/
structure GuidingSession where
  start_time : ℚ
  end_time : Option ℚ := none
  equipment_profile : String := ""
  pixel_scale : ℚ := 0
  focal_length : ℤ := 0
  ra : ℚ := 0
  dec : ℚ := 0
  hour_angle : ℚ := 0
  pier_side : String := ""
  altitude : ℚ := 0
  azimuth : ℚ := 0
  frames : List GuidingFrame := []
deriving DecidableEq, Repr

/-- Autofocus run data from NINA. -/
structure AutofocusRun where
  timestamp : ℚ
  trigger : String := ""
  filter_name : String := ""
  initial_position : ℤ := 0
  final_position : ℤ := 0
  final_hfr : ℚ := 0
  temperature : Option ℚ := none
deriving DecidableEq, Repr

/-- Exposure data from NINA.  The RMS fields are populated only by the
correlation engine, hence Option ℝ. -/
structure Exposure where
  timestamp : ℚ
  exposure_time : ℚ
  filter_name : String
  gain : ℤ
  offset : ℤ
  binning : String
  image_type : String := "LIGHT"
  hfr : Option ℚ := none
  stars_detected : Option ℤ := none
  saved_path : Option String := none
  ra_rms : Option ℝ := none
  dec_rms : Option ℝ := none
  total_rms : Option ℝ := none
  guiding_frames : ℕ := 0

/-- Filter change event from NINA. -/
structure FilterChange where
  timestamp : ℚ
  filter_name : String
  position : ℤ
deriving DecidableEq, Repr

/-- Meridian flip event from NINA. -/
structure MeridianFlip where
  timestamp : ℚ
  from_pier_side : String
  to_pier_side : String
deriving DecidableEq, Repr

/-- RMS threshold alert from NINA. -/
structure RMSAlert where
  timestamp : ℚ
  total_rms : ℚ
  ra_rms : ℚ
  dec_rms : ℚ
  threshold : ℚ
deriving DecidableEq, Repr

/-- Dither event from NINA. -/
structure DitherEvent where
  start_time : ℚ
  end_time : Option ℚ := none
deriving DecidableEq, Repr

/-! ### RMS statistics -/

/-- Root mean square: sqrt(mean(vals²)), matching
float(np.sqrt(np.mean(np.square(vals)))). -/
noncomputable def rmsOf (vals : List ℚ) : ℝ :=
  Real.sqrt (((vals.map fun v => ((v : ℝ)) ^ 2).sum) / vals.length)

/-- RA RMS in arcseconds (property GuidingSession.ra_rms). -/
noncomputable def GuidingSession.ra_rms (s : GuidingSession) : ℝ :=
  if s.frames = [] then 0
  else
    let rms_px := rmsOf (s.frames.map GuidingFrame.ra_raw)
    if s.pixel_scale ≠ 0 then rms_px * (s.pixel_scale : ℝ) else rms_px

/-- Dec RMS in arcseconds (property GuidingSession.dec_rms). -/
noncomputable def GuidingSession.dec_rms (s : GuidingSession) : ℝ :=
  if s.frames = [] then 0
  else
    let rms_px := rmsOf (s.frames.map GuidingFrame.dec_raw)
    if s.pixel_scale ≠ 0 then rms_px * (s.pixel_scale : ℝ) else rms_px

/-- Total RMS in arcseconds (property GuidingSession.total_rms). -/
noncomputable def GuidingSession.total_rms (s : GuidingSession) : ℝ :=
  if s.frames = [] then 0
  else Real.sqrt (s.ra_rms ^ 2 + s.dec_rms ^ 2)

/-- Session duration in seconds (property GuidingSession.duration_seconds). -/
def GuidingSession.duration_seconds (s : GuidingSession) : ℚ :=
  match s.end_time with
  | some e => e - s.start_time
  | none => 0

/-! ### Dither exclusion and aggregation (PHD2Parser methods) -/

/-- PHD2Parser._is_during_dither: the timestamp falls inside some dither
window enlarged by the margin. -/
def is_during_dither (t : ℚ) (dither_events : List DitherEvent) (margin_seconds : ℚ) : Bool :=
  dither_events.any fun d =>
    decide (d.start_time - margin_seconds ≤ t ∧ t ≤ (d.end_time.getD d.start_time) + margin_seconds)

/-- The guard `dither_events and self._is_during_dither(...)` : None (or an
empty list) short-circuits to no exclusion. -/
def ditherSkip (dither_events : Option (List DitherEvent)) (margin : ℚ) (t : ℚ) : Bool :=
  match dither_events with
  | none => false
  | some ds => is_during_dither t ds margin

/-- Loop state of get_rms_over_time for one session: completed buckets
(tagged with their start time), the current bucket start, and the
frames accumulated into the current bucket. -/
structure BucketState where
  completed : List (ℚ × List GuidingFrame)
  bucket_start : ℚ
  current : List GuidingFrame

/-- One iteration of the frame loop of get_rms_over_time. -/
def bucketStep (s0 interval : ℚ) (dither_events : Option (List DitherEvent)) (margin : ℚ)
    (st : BucketState) (f : GuidingFrame) : BucketState :=
  let frame_dt := s0 + f.time
  if ditherSkip dither_events margin frame_dt then st
  else if interval ≤ frame_dt - st.bucket_start then
    { completed := st.completed ++ (if st.current = [] then [] else [(st.bucket_start, st.current)]),
      bucket_start := frame_dt,
      current := [f] }
  else
    { st with current := st.current ++ [f] }

/-- The buckets (start time, member frames) emitted for one session by
get_rms_over_time, including the trailing partial bucket. -/
def sessionBuckets (interval : ℚ) (dither_events : Option (List DitherEvent)) (margin : ℚ)
    (s : GuidingSession) : List (ℚ × List GuidingFrame) :=
  let fin := s.frames.foldl (bucketStep s.start_time interval dither_events margin)
    ⟨[], s.start_time, []⟩
  fin.completed ++ (if fin.current = [] then [] else [(fin.bucket_start, fin.current)])

/-- RMS emission for one bucket: pixel errors scaled to arcseconds. -/
noncomputable def bucketEmit (pixel_scale : ℚ) (b : ℚ × List GuidingFrame) : ℚ × ℝ × ℝ × ℝ :=
  let ra_rms := rmsOf (b.2.map GuidingFrame.ra_raw) * (pixel_scale : ℝ)
  let dec_rms := rmsOf (b.2.map GuidingFrame.dec_raw) * (pixel_scale : ℝ)
  (b.1, ra_rms, dec_rms, Real.sqrt (ra_rms ^ 2 + dec_rms ^ 2))

/-- PHD2Parser.get_rms_over_time over the parser's session list. -/
noncomputable def get_rms_over_time (sessions : List GuidingSession) (interval_seconds : ℚ)
    (dither_events : Option (List DitherEvent)) (dither_margin_seconds : ℚ) :
    List (ℚ × ℝ × ℝ × ℝ) :=
  sessions.flatMap fun s =>
    if s.frames = [] then []
    else
      let pixel_scale := if s.pixel_scale ≠ 0 then s.pixel_scale else 1
      (sessionBuckets interval_seconds dither_events dither_margin_seconds s).map
        (bucketEmit pixel_scale)

/-- Frames of a session surviving dither exclusion (the frames whose raw
errors get_overall_rms accumulates). -/
def survivingFrames (dither_events : Option (List DitherEvent)) (margin : ℚ)
    (s : GuidingSession) : List GuidingFrame :=
  s.frames.filter fun f => !(ditherSkip dither_events margin (s.start_time + f.time))

/-- The pixel scale variable of get_overall_rms after its session loop:
overwritten by every session with a nonzero scale, so the last one wins. -/
def lastPixelScale (sessions : List GuidingSession) : ℚ :=
  sessions.foldl (fun a s => if s.pixel_scale ≠ 0 then s.pixel_scale else a) 1

/-- The all_ra accumulator of get_overall_rms. -/
def overallRaValues (sessions : List GuidingSession) (dither_events : Option (List DitherEvent))
    (margin : ℚ) : List ℚ :=
  sessions.flatMap fun s => (survivingFrames dither_events margin s).map GuidingFrame.ra_raw

/-- The all_dec accumulator of get_overall_rms. -/
def overallDecValues (sessions : List GuidingSession) (dither_events : Option (List DitherEvent))
    (margin : ℚ) : List ℚ :=
  sessions.flatMap fun s => (survivingFrames dither_events margin s).map GuidingFrame.dec_raw

/-- PHD2Parser.get_overall_rms over the parser's session list. -/
noncomputable def get_overall_rms (sessions : List GuidingSession) (dither_events : Option (List DitherEvent))
    (dither_margin_seconds : ℚ) : ℝ × ℝ × ℝ :=
  if overallRaValues sessions dither_events dither_margin_seconds = [] then (0, 0, 0)
  else
    let ps : ℝ := ((lastPixelScale sessions : ℚ) : ℝ)
    let ra_rms := rmsOf (overallRaValues sessions dither_events dither_margin_seconds) * ps
    let dec_rms := rmsOf (overallDecValues sessions dither_events dither_margin_seconds) * ps
    (ra_rms, dec_rms, Real.sqrt (ra_rms ^ 2 + dec_rms ^ 2))

/-! ### Correlation engine (correlate_guiding_with_exposures) -/

/-- The pixel-scale selection loop of correlate_guiding_with_exposures:
first session with a nonzero scale (the loop breaks), defaulting to 1. -/
def firstPixelScale (sessions : List GuidingSession) : ℚ :=
  match sessions.find? (fun s => s.pixel_scale != 0) with
  | some s => s.pixel_scale
  | none => 1

/-- Guiding frames qualifying for one exposure: inside the inclusive
exposure window and not inside a dither margin window. -/
def qualifyingFrames (sessions : List GuidingSession) (dither_events : Option (List DitherEvent))
    (margin : ℚ) (e : Exposure) : List GuidingFrame :=
  sessions.flatMap fun s =>
    s.frames.filter fun f =>
      let frame_dt := s.start_time + f.time
      (decide (e.timestamp ≤ frame_dt ∧ frame_dt ≤ e.timestamp + e.exposure_time)) &&
        !(ditherSkip dither_events margin frame_dt)

/-- The per-exposure body of correlate_guiding_with_exposures: overwrite the
RMS fields when at least one frame qualifies, otherwise leave the
exposure untouched. -/
noncomputable def correlateOne (sessions : List GuidingSession) (dither_events : Option (List DitherEvent))
    (margin : ℚ) (pixel_scale : ℚ) (e : Exposure) : Exposure :=
  let ra_values := (qualifyingFrames sessions dither_events margin e).map GuidingFrame.ra_raw
  let dec_values := (qualifyingFrames sessions dither_events margin e).map GuidingFrame.dec_raw
  if ra_values = [] then e
  else
    let ra_rms := rmsOf ra_values * (pixel_scale : ℝ)
    let dec_rms := rmsOf dec_values * (pixel_scale : ℝ)
    { e with
      ra_rms := some ra_rms
      dec_rms := some dec_rms
      total_rms := some (Real.sqrt (ra_rms ^ 2 + dec_rms ^ 2))
      guiding_frames := ra_values.length }

/-- correlate_guiding_with_exposures: updates every exposure of the imaging
dataset from the guiding dataset (in-place mutation modelled as a map). -/
noncomputable def correlate_guiding_with_exposures (sessions : List GuidingSession) (exposures : List Exposure)
    (dither_events : Option (List DitherEvent)) (dither_margin_seconds : ℚ) : List Exposure :=
  exposures.map
    (correlateOne sessions dither_events dither_margin_seconds (firstPixelScale sessions))

/-! ### String scanning combinators (model of the re.search / re.match
patterns the parsers use: every pattern is a literal/character-class
sequence, so leftmost search is a scan over start positions) -/

/-- Python \s (whitespace) characters; also the set stripped by str.strip(). -/
def isPySpace (c : Char) : Bool :=
  c = ' ' ∨ c = '\t' ∨ c = '\n' ∨ c = '\r' ∨ c = '\x0b' ∨ c = '\x0c'

/-- Python \w (word) characters for ASCII input. -/
def isWordChar (c : Char) : Bool :=
  c.isAlphanum ∨ c = '_'

/-- Match a literal at the current position, returning the remainder. -/
def litMatch (lit cs : List Char) : Option (List Char) :=
  if lit.isPrefixOf cs then some (cs.drop lit.length) else none

/-- Leftmost search: try the pattern at every start position left to right
(re.search semantics for the backtracking-free patterns used here). -/
def searchFrom (p : List Char → Option α) : List Char → Option α
  | [] => p []
  | c :: cs =>
    match p (c :: cs) with
    | some a => some a
    | none => searchFrom p cs

/-- Rightmost search: used for the part of a pattern after a greedy .* -/
def searchLast (p : List Char → Option α) : List Char → Option α
  | [] => p []
  | c :: cs =>
    match searchLast p cs with
    | some a => some a
    | none => p (c :: cs)

/-- Maximal run of a character class and the remainder. -/
def classRun (cl : Char → Bool) (cs : List Char) : List Char × List Char :=
  (cs.takeWhile cl, cs.dropWhile cl)

/-- Character class of [\d.] -/
def isFloatChar (c : Char) : Bool := c.isDigit ∨ c = '.'

/-- Character class of [-\d.] -/
def isSignedFloatChar (c : Char) : Bool := c.isDigit ∨ c = '.' ∨ c = '-'

/-- Match \d+ : nonempty maximal digit run. -/
def digitRun1 (cs : List Char) : Option (List Char × List Char) :=
  let r := classRun Char.isDigit cs
  if r.1 = [] then none else some r

/-- Match a nonempty maximal run of an arbitrary class (e.g. [\d.]+, \w+). -/
def classRun1 (cl : Char → Bool) (cs : List Char) : Option (List Char × List Char) :=
  let r := classRun cl cs
  if r.1 = [] then none else some r

/-- Match the 19-character timestamp shape dddd-dd-dd⟨sep⟩dd:dd:dd (with
sep being a space for PHD2 and a T for NINA), returning its epoch-second
value and the remainder of the input. -/
def dtMatch (sep : Char) (cs : List Char) : Option (ℚ × List Char) :=
  match cs with
  | y1 :: y2 :: y3 :: y4 :: a1 :: mo1 :: mo2 :: a2 :: d1 :: d2 :: a3 ::
      h1 :: h2 :: a4 :: mi1 :: mi2 :: a5 :: s1 :: s2 :: rest =>
    if ([y1, y2, y3, y4, mo1, mo2, d1, d2, h1, h2, mi1, mi2, s1, s2].all Char.isDigit) ∧
        a1 = '-' ∧ a2 = '-' ∧ a3 = sep ∧ a4 = ':' ∧ a5 = ':' then
      some (toEpoch (digitsToNat [y1, y2, y3, y4]) (digitsToNat [mo1, mo2])
        (digitsToNat [d1, d2]) (digitsToNat [h1, h2]) (digitsToNat [mi1, mi2])
        (digitsToNat [s1, s2]) 0, rest)
    else none
  | _ => none

/-- Model of Python's str.split(sep) for a single-character separator. -/
def splitOnChar (sep : Char) (cs : List Char) : List (List Char) :=
  cs.foldr
    (fun c acc =>
      if c = sep then [] :: acc
      else
        match acc with
        | [] => [[c]]
        | a :: rest => (c :: a) :: rest)
    [[]]

/-! ### PHD2Parser (guide-log line state machine) -/

/-- Literal prefixes and pattern literals of PHD2Parser.parse. -/
def litPHD2Version : List Char := "PHD2 version".toList

/-- Pattern literal of the log-enabled line. -/
def litLogEnabledAt : List Char := "Log enabled at ".toList

/-- Prefix literal of the session-begin line (the startswith test). -/
def litGuidingBegins : List Char := "Guiding Begins at".toList

/-- Pattern literal of the session-begin capture. -/
def litGuidingBeginsAt : List Char := "Guiding Begins at ".toList

/-- Prefix literal of the equipment-profile line. -/
def litEquipmentProfile : List Char := "Equipment Profile".toList

/-- Pattern literal of the equipment-profile capture. -/
def litEquipmentProfileEq : List Char := "Equipment Profile = ".toList

/-- Prefix literal of the pixel-scale line. -/
def litPixelScale : List Char := "Pixel scale".toList

/-- Pattern literal of the pixel-scale capture. -/
def litPixelScaleEq : List Char := "Pixel scale = ".toList

/-- Pattern literal of the focal-length capture. -/
def litFocalLengthEq : List Char := "Focal length = ".toList

/-- Prefix literal of the pointing line. -/
def litRAEq : List Char := "RA =".toList

/-- Prefix literal of the session-end line (the startswith test). -/
def litGuidingEnds : List Char := "Guiding Ends at".toList

/-- Pattern literal of the session-end capture. -/
def litGuidingEndsAt : List Char := "Guiding Ends at ".toList

/-- Search for the pattern: literal followed by a 19-character datetime
(regexes like r'Guiding Begins at (dddd-dd-dd dd:dd:dd)'). -/
def litThenDT (lit : List Char) (cs : List Char) : Option ℚ :=
  searchFrom (fun t => (litMatch lit t).bind fun r => (dtMatch ' ' r).map Prod.fst) cs

/-- Search of r'Pixel scale = ([\d.]+).*Focal length = (\d+)' returning the
two raw captures. -/
def pixelScaleSearch (cs : List Char) : Option (List Char × List Char) :=
  searchFrom
    (fun t => do
      let r ← litMatch litPixelScaleEq t
      let g1 ← classRun1 isFloatChar r
      let g2 ← searchLast
        (fun u => do
          let r2 ← litMatch litFocalLengthEq u
          let d ← digitRun1 r2
          some d.1) g1.2
      some (g1.1, g2)) cs

/-- Search of the pointing-line pattern
r'RA = ([\d.]+) hr, Dec = ([-\d.]+) deg, Hour angle = ([-\d.]+) hr,
Pier side = (\w+).*Alt = ([\d.]+) deg, Az = ([\d.]+) deg'
returning the six raw captures. -/
def pointingSearch (cs : List Char) :
    Option (List Char × List Char × List Char × List Char × List Char × List Char) :=
  searchFrom
    (fun t => do
      let r1 ← litMatch ("RA = ".toList) t
      let g1 ← classRun1 isFloatChar r1
      let r2 ← litMatch (" hr, Dec = ".toList) g1.2
      let g2 ← classRun1 isSignedFloatChar r2
      let r3 ← litMatch (" deg, Hour angle = ".toList) g2.2
      let g3 ← classRun1 isSignedFloatChar r3
      let r4 ← litMatch (" hr, Pier side = ".toList) g3.2
      let g4 ← classRun1 isWordChar r4
      let tail ← searchLast
        (fun u => do
          let u1 ← litMatch ("Alt = ".toList) u
          let g5 ← classRun1 isFloatChar u1
          let u2 ← litMatch (" deg, Az = ".toList) g5.2
          let g6 ← classRun1 isFloatChar u2
          let _ ← litMatch (" deg".toList) g6.2
          some (g5.1, g6.1)) g4.2
      some (g1.1, g2.1, g3.1, g4.1, tail.1, tail.2)) cs

/-- Does the line match the frame-data head pattern r'^\d+,' ? -/
def frameLineHead (cs : List Char) : Bool :=
  let r := classRun Char.isDigit cs
  decide (r.1 ≠ []) && (r.2.head? == some ',')

/-- PHD2Parser._parse_frame: split on commas, require ≥ 18 fields, convert
(any conversion failure discards the whole frame line). -/
def phd2_parse_frame (cs : List Char) : Option GuidingFrame := do
  let parts := splitOnChar ',' cs
  if parts.length < 18 then none
  else
    let p := fun i => parts.getD i []
    let frame ← pyIntZ (p 0)
    let time ← pyFloatQ (p 1)
    let dx ← pyFloatQ (p 3)
    let dy ← pyFloatQ (p 4)
    let ra_raw ← pyFloatQ (p 5)
    let dec_raw ← pyFloatQ (p 6)
    let ra_guide ← pyFloatQ (p 7)
    let dec_guide ← pyFloatQ (p 8)
    let ra_duration ← if p 9 = [] then some 0 else pyIntZ (p 9)
    let dec_duration ← if p 11 = [] then some 0 else pyIntZ (p 11)
    let star_mass ← if p 15 = [] then some 0 else pyFloatQ (p 15)
    let snr ← if p 16 = [] then some 0 else pyFloatQ (p 16)
    let error_code ← if p 17 = [] then some 0 else pyIntZ (p 17)
    some
      { frame := frame, time := time, dx := dx, dy := dy
        ra_raw := ra_raw, dec_raw := dec_raw
        ra_guide := ra_guide, dec_guide := dec_guide
        ra_duration := ra_duration, dec_duration := dec_duration
        ra_direction := String.mk (p 10), dec_direction := String.mk (p 12)
        star_mass := star_mass, snr := snr, error_code := error_code }

/-- Loop state of PHD2Parser.parse: the parser object fields plus the
current_session local variable. -/
structure PHD2Scan where
  sessions : List GuidingSession
  log_date : Option ℚ
  current : Option GuidingSession

/-- Update the open session, if any. -/
def PHD2Scan.mapCurrent (st : PHD2Scan) (f : GuidingSession → GuidingSession) : PHD2Scan :=
  match st.current with
  | some c => { st with current := some (f c) }
  | none => st

/-- One iteration of the line loop of PHD2Parser.parse (the line is
already stripped).  The branches form an if/elif chain, so a line takes
at most one of them. -/
def phd2Step (st : PHD2Scan) (line : String) : PHD2Scan :=
  let cs := stripWS line.toList
  if litPHD2Version.isPrefixOf cs then
    match litThenDT litLogEnabledAt cs with
    | some t => { st with log_date := some t }
    | none => st
  else if litGuidingBegins.isPrefixOf cs then
    match litThenDT litGuidingBeginsAt cs with
    | some t => { st with current := some { start_time := t } }
    | none => st
  else if litEquipmentProfile.isPrefixOf cs ∧ st.current.isSome then
    match searchFrom (fun t => (litMatch litEquipmentProfileEq t).bind fun r =>
        if r = [] then none else some r) cs with
    | some r => st.mapCurrent fun c => { c with equipment_profile := String.mk r }
    | none => st
  else if litPixelScale.isPrefixOf cs ∧ st.current.isSome then
    match pixelScaleSearch cs with
    | some (g1, g2) =>
      match pyFloatQ g1 with
      | some v =>
        st.mapCurrent fun c =>
          { c with pixel_scale := v, focal_length := (digitsToNat g2 : ℤ) }
      | none => st
    | none => st
  else if litRAEq.isPrefixOf cs ∧ st.current.isSome then
    match pointingSearch cs with
    | some (g1, g2, g3, g4, g5, g6) =>
      match pyFloatQ g1, pyFloatQ g2, pyFloatQ g3, pyFloatQ g5, pyFloatQ g6 with
      | some ra, some dec, some ha, some alt, some az =>
        st.mapCurrent fun c =>
          { c with ra := ra, dec := dec, hour_angle := ha,
                   pier_side := String.mk g4, altitude := alt, azimuth := az }
      | _, _, _, _, _ => st
    | none => st
  else if st.current.isSome ∧ frameLineHead cs then
    match phd2_parse_frame cs with
    | some f => st.mapCurrent fun c => { c with frames := c.frames ++ [f] }
    | none => st
  else if litGuidingEnds.isPrefixOf cs then
    match litThenDT litGuidingEndsAt cs, st.current with
    | some t, some c =>
      { st with sessions := st.sessions ++ [{ c with end_time := some t }], current := none }
    | _, _ => st
  else st

/-- The PHD2Parser object: its fields between parse calls. -/
structure PHD2Parser where
  sessions : List GuidingSession := []
  log_date : Option ℚ := none

/-- PHD2Parser.parse: reset the session list, scan all lines; an
unterminated current session is dropped at end of file. -/
def PHD2Parser.parse (p : PHD2Parser) (lines : List String) : PHD2Parser :=
  let fin := lines.foldl phd2Step
    { sessions := [], log_date := p.log_date, current := none }
  { sessions := fin.sessions, log_date := fin.log_date }

/-! ### NINAParser (imaging-log line state machine) -/

/-- The NINAParser object: all accumulated state of an instance. -/
structure NINAParser where
  autofocus_runs : List AutofocusRun := []
  exposures : List Exposure := []
  filter_changes : List FilterChange := []
  meridian_flips : List MeridianFlip := []
  rms_alerts : List RMSAlert := []
  dither_events : List DitherEvent := []
  target_name : String := ""
  session_start : Option ℚ := none
  session_end : Option ℚ := none
  current_filter : String := ""
  current_pier_side : String := ""
  pending_af : Option AutofocusRun := none
  pending_exposure : Option Exposure := none
  pending_dither : Option DitherEvent := none
  last_hfr : Option ℚ := none
  last_stars : Option ℤ := none

/-- Python truthiness of an Option float (None and 0.0 are falsy). -/
def truthyQ (o : Option ℚ) : Bool :=
  match o with
  | none => false
  | some v => v != 0

/-- Python truthiness of an Option int (None and 0 are falsy). -/
def truthyZ (o : Option ℤ) : Bool :=
  match o with
  | none => false
  | some v => v != 0

/-- Substring containment, the Python infix test (sub in line). -/
def containsSub : List Char → List Char → Bool
  | [], sub => sub.isEmpty
  | c :: t, sub => sub.isPrefixOf (c :: t) || containsSub t sub

/-- NINAParser._parse_timestamp: the anchored regex
r'^(\d{4}-\d{2}-\d{2}T\d{2}:\d{2}:\d{2}\.\d+)' (a fractional part is
required), with the capture truncated to 23 characters, i.e. millisecond
precision. -/
def nina_parse_timestamp (cs : List Char) : Option ℚ :=
  match dtMatch 'T' cs with
  | none => none
  | some (t, rest) =>
    match rest with
    | '.' :: ds =>
      let run := ds.takeWhile Char.isDigit
      if run = [] then none
      else
        let f := run.take 3
        some (t + (digitsToNat f : ℚ) / (10 : ℚ) ^ f.length)
    | _ => none

/-- Search of r'Target:\s*(.+?)\s+RA:' : skip the spaces after the marker,
then take the shortest nonempty capture followed by whitespace and RA:. -/
def targetSearch (cs : List Char) : Option (List Char) :=
  searchFrom
    (fun t => do
      let r ← litMatch ("Target:".toList) t
      let body := r.dropWhile isPySpace
      targetSplit body) cs
where
  /-- Shortest split of the body into capture ++ whitespace+ ++ RA: ... -/
  targetSplit : List Char → Option (List Char)
    | [] => none
    | c :: rest =>
      match searchSp (c :: rest) with
      | some _ => some []
      | none => (targetSplit rest).map fun g => c :: g
  /-- Does the input start with \s+RA: (with at least one capture char
  consumed by the caller)? -/
  searchSp (u : List Char) : Option Unit :=
    let sp := u.takeWhile isPySpace
    if sp = [] then none
    else (litMatch ("RA:".toList) (u.dropWhile isPySpace)).map fun _ => ()

/-- Search of a literal followed by a required \d+ capture. -/
def litThenDigits (lit : List Char) (cs : List Char) : Option (List Char) :=
  searchFrom (fun t => (litMatch lit t).bind fun r => (digitRun1 r).map Prod.fst) cs

/-- Search of a literal followed by a required [\d.]+ capture. -/
def litThenFloat (lit : List Char) (cs : List Char) : Option (List Char) :=
  searchFrom (fun t => (litMatch lit t).bind fun r => (classRun1 isFloatChar r).map Prod.fst) cs

/-- Search of r'Average HFR: ([\d.]+).*Detected Stars (\d+)'. -/
def hfrSearch (cs : List Char) : Option (List Char × List Char) :=
  searchFrom
    (fun t => do
      let r ← litMatch ("Average HFR: ".toList) t
      let g1 ← classRun1 isFloatChar r
      let g2 ← searchLast
        (fun u => (litMatch ("Detected Stars ".toList) u).bind fun r2 =>
          (digitRun1 r2).map Prod.fst) g1.2
      some (g1.1, g2)) cs

/-- Search of r'Moving to Filter (\w+) at Position (\d+)'. -/
def filterSearch (cs : List Char) : Option (List Char × List Char) :=
  searchFrom
    (fun t => do
      let r ← litMatch ("Moving to Filter ".toList) t
      let g1 ← classRun1 isWordChar r
      let r2 ← litMatch (" at Position ".toList) g1.2
      let g2 ← digitRun1 r2
      some (g1.1, g2.1)) cs

/-- Search of r'Exposure Time: ([\d.]+)s; Filter: (\w*); Gain: (\d+);
Offset (\d+); Binning: (\d+x\d+)' returning the five raw captures (the
binning capture as its two digit groups). -/
def exposureSearch (cs : List Char) :
    Option (List Char × List Char × List Char × List Char × List Char × List Char) :=
  searchFrom
    (fun t => do
      let r ← litMatch ("Exposure Time: ".toList) t
      let g1 ← classRun1 isFloatChar r
      let r2 ← litMatch ("s; Filter: ".toList) g1.2
      let g2 := classRun isWordChar r2
      let r3 ← litMatch ("; Gain: ".toList) g2.2
      let g3 ← digitRun1 r3
      let r4 ← litMatch ("; Offset ".toList) g3.2
      let g4 ← digitRun1 r4
      let r5 ← litMatch ("; Binning: ".toList) g4.2
      let b1 ← digitRun1 r5
      let r6 ← litMatch ("x".toList) b1.2
      let b2 ← digitRun1 r6
      some (g1.1, g2.1, g3.1, g4.1, b1.1, b2.1)) cs

/-- Search of r'Saved image to (.+\.fits)' : the greedy capture extends to
the last ".fits" occurrence preceded by at least one character. -/
def savedSearch (cs : List Char) : Option (List Char) :=
  searchFrom
    (fun t => do
      let r ← litMatch ("Saved image to ".toList) t
      let ks := (List.range (r.length + 1)).filter
        (fun k => decide (1 ≤ k) && ((".fits".toList).isPrefixOf (r.drop k)))
      let k ← ks.getLast?
      some (r.take (k + 5))) cs

/-- Search of r'pier side pier(\w+)'. -/
def pierSearch (cs : List Char) : Option (List Char) :=
  searchFrom
    (fun t => (litMatch ("pier side pier".toList) t).bind fun r =>
      (classRun1 isWordChar r).map Prod.fst) cs

/-- Search of r'Total RMS above threshold \(([\d.]+) / ([\d.]+)\)'. -/
def rmsAlertSearch (cs : List Char) : Option (List Char × List Char) :=
  searchFrom
    (fun t => do
      let r ← litMatch ("Total RMS above threshold (".toList) t
      let g1 ← classRun1 isFloatChar r
      let r2 ← litMatch (" / ".toList) g1.2
      let g2 ← classRun1 isFloatChar r2
      let _ ← litMatch (")".toList) g2.2
      some (g1.1, g2.1)) cs

/-- Search of r'Trigger: (AutofocusAfter\w+)'. -/
def triggerSearch (cs : List Char) : Option (List Char) :=
  searchFrom
    (fun t => (litMatch ("Trigger: AutofocusAfter".toList) t).bind fun r =>
      (classRun1 isWordChar r).map fun g => ("AutofocusAfter".toList) ++ g.1) cs

/-- Branch of _parse_line: target name from DeepSkyObjectContainer. -/
def ninaTarget (cs : List Char) (st : NINAParser) : NINAParser :=
  if containsSub cs ("DeepSkyObjectContainer".toList) ∧ containsSub cs ("Target:".toList) then
    match targetSearch cs with
    | some g => { st with target_name := String.mk (stripWS g) }
    | none => st
  else st

/-- Branch of _parse_line: autofocus start opens a pending run. -/
def ninaAfStart (timestamp : ℚ) (cs : List Char) (st : NINAParser) : NINAParser :=
  if containsSub cs ("RunAutofocus".toList) ∧ containsSub cs ("Starting".toList) then
    { st with pending_af := some { timestamp := timestamp, filter_name := st.current_filter } }
  else st

/-- Branch of _parse_line: autofocus initial position. -/
def ninaAfInitial (cs : List Char) (st : NINAParser) : NINAParser :=
  if containsSub cs ("Starting AutoFocus with initial position".toList) ∧
      st.pending_af.isSome then
    match litThenDigits ("initial position ".toList) cs, st.pending_af with
    | some g, some af =>
      { st with pending_af := some { af with initial_position := (digitsToNat g : ℤ) } }
    | _, _ => st
  else st

/-- Branch of _parse_line: autofocus trigger reason. -/
def ninaAfTrigger (cs : List Char) (st : NINAParser) : NINAParser :=
  if containsSub cs ("AutofocusAfter".toList) ∧ containsSub cs ("Starting Trigger".toList) then
    match triggerSearch cs, st.pending_af with
    | some g, some af => { st with pending_af := some { af with trigger := String.mk g } }
    | _, _ => st
  else st

/-- Branch of _parse_line: autofocus temperature on the success broadcast. -/
def ninaAfTemperature (cs : List Char) (st : NINAParser) : NINAParser :=
  if containsSub cs ("BroadcastSuccessfulAutoFocusRun".toList) then
    match litThenFloat ("Temperature ".toList) cs, st.pending_af with
    | some g, some af =>
      match pyFloatQ g with
      | some v => { st with pending_af := some { af with temperature := some v } }
      | none => st
    | _, _ => st
  else st

/-- Branch of _parse_line: autofocus completion finalizes the pending run
(stamping the rolling last HFR when it is truthy). -/
def ninaAfComplete (cs : List Char) (st : NINAParser) : NINAParser :=
  if containsSub cs ("AutoFocus completed".toList) ∧ st.pending_af.isSome then
    match litThenDigits ("ending at ".toList) cs, st.pending_af with
    | some g, some af =>
      let af := { af with final_position := (digitsToNat g : ℤ) }
      let af := if truthyQ st.last_hfr then { af with final_hfr := st.last_hfr.getD 0 } else af
      { st with autofocus_runs := st.autofocus_runs ++ [af], pending_af := none }
    | _, _ => st
  else st

/-- Branch of _parse_line: Hocus Focus star-detection updates the rolling
last HFR / star count. -/
def ninaHfr (cs : List Char) (st : NINAParser) : NINAParser :=
  if containsSub cs ("HocusFocusStarDetection".toList) ∧
      containsSub cs ("Average HFR:".toList) then
    match hfrSearch cs with
    | some (g1, g2) =>
      match pyFloatQ g1 with
      | some v => { st with last_hfr := some v, last_stars := some (digitsToNat g2 : ℤ) }
      | none => st
    | none => st
  else st

/-- Branch of _parse_line: filter change event plus rolling current filter. -/
def ninaFilter (timestamp : ℚ) (cs : List Char) (st : NINAParser) : NINAParser :=
  if containsSub cs ("FilterWheelVM".toList) ∧ containsSub cs ("Moving to Filter".toList) then
    match filterSearch cs with
    | some (g1, g2) =>
      { st with
        filter_changes := st.filter_changes ++
          [{ timestamp := timestamp, filter_name := String.mk g1,
             position := (digitsToNat g2 : ℤ) }],
        current_filter := String.mk g1 }
    | none => st
  else st

/-- Branch of _parse_line: exposure start opens a pending exposure. -/
def ninaExposureStart (timestamp : ℚ) (cs : List Char) (st : NINAParser) : NINAParser :=
  if containsSub cs ("CameraVM".toList) ∧ containsSub cs ("Starting Exposure".toList) then
    match exposureSearch cs with
    | some (g1, g2, g3, g4, b1, b2) =>
      match pyFloatQ g1 with
      | some expTime =>
        let filter_name := if g2 ≠ [] then String.mk g2 else st.current_filter
        let st := if filter_name ≠ "" then { st with current_filter := filter_name } else st
        let e : Exposure :=
          { timestamp := timestamp, exposure_time := expTime, filter_name := filter_name,
            gain := (digitsToNat g3 : ℤ), offset := (digitsToNat g4 : ℤ),
            binning := String.mk (b1 ++ ('x' :: b2)) }
        { st with pending_exposure := some e }
      | none => st
    | none => st
  else st

/-- Branch of _parse_line: a LIGHT save-to-disk marker finalizes the
pending exposure, stamping rolling HFR / star count when truthy. -/
def ninaSaved (cs : List Char) (st : NINAParser) : NINAParser :=
  if containsSub cs ("SaveToDisk".toList) ∧ containsSub cs ("LIGHT".toList) then
    match savedSearch cs, st.pending_exposure with
    | some g, some pe =>
      let pe := { pe with saved_path := some (String.mk g) }
      let pe := if truthyQ st.last_hfr then { pe with hfr := st.last_hfr } else pe
      let pe := if truthyZ st.last_stars then { pe with stars_detected := st.last_stars } else pe
      { st with exposures := st.exposures ++ [pe], pending_exposure := none }
    | _, _ => st
  else st

/-- Branch of _parse_line: pier-side tracking; a flip is emitted only when
a previously-known side differs from the new one. -/
def ninaPier (timestamp : ℚ) (cs : List Char) (st : NINAParser) : NINAParser :=
  if containsSub cs ("MeridianFlipTrigger".toList) ∧ containsSub cs ("pier side".toList) then
    match pierSearch cs with
    | some g =>
      let newSide := String.mk g
      let st :=
        if st.current_pier_side ≠ "" ∧ st.current_pier_side ≠ newSide then
          { st with meridian_flips := st.meridian_flips ++
            [{ timestamp := timestamp, from_pier_side := st.current_pier_side,
               to_pier_side := newSide }] }
        else st
      { st with current_pier_side := newSide }
    | none => st
  else st

/-- Branch of _parse_line: RMS threshold alert. -/
def ninaRmsAlert (timestamp : ℚ) (cs : List Char) (st : NINAParser) : NINAParser :=
  if containsSub cs ("InterruptWhenRMSAbove".toList) ∧
      containsSub cs ("Total RMS above threshold".toList) then
    match rmsAlertSearch cs with
    | some (g1, g2) =>
      match pyFloatQ g1, pyFloatQ g2 with
      | some total, some thresh =>
        { st with rms_alerts := st.rms_alerts ++
          [{ timestamp := timestamp, total_rms := total, ra_rms := 0, dec_rms := 0,
             threshold := thresh }] }
      | _, _ => st
    | none => st
  else st

/-- Branch of _parse_line: dither start opens a pending dither event. -/
def ninaDitherStart (timestamp : ℚ) (cs : List Char) (st : NINAParser) : NINAParser :=
  if containsSub cs ("SequenceItem".toList) ∧ containsSub cs ("Starting".toList) ∧
      containsSub cs ("Item: Dither".toList) then
    { st with pending_dither := some { start_time := timestamp } }
  else st

/-- Branch of _parse_line: dither finish closes and emits the pending
dither event. -/
def ninaDitherEnd (timestamp : ℚ) (cs : List Char) (st : NINAParser) : NINAParser :=
  if containsSub cs ("SequenceItem".toList) ∧ containsSub cs ("Finishing".toList) ∧
      containsSub cs ("Item: Dither".toList) then
    match st.pending_dither with
    | some d =>
      { st with dither_events := st.dither_events ++ [{ d with end_time := some timestamp }],
                pending_dither := none }
    | none => st
  else st

/-- Session bounds: first recognized timestamp fixes session_start, every
recognized timestamp advances session_end. -/
def ninaBounds (timestamp : ℚ) (st : NINAParser) : NINAParser :=
  { st with
    session_start := if st.session_start.isNone then some timestamp else st.session_start,
    session_end := some timestamp }

/-- NINAParser._parse_line on one already-stripped line.  Every marker is
tested independently (plain ifs, not an elif chain), in source order. -/
def nina_parse_line (st : NINAParser) (cs : List Char) : NINAParser :=
  match nina_parse_timestamp cs with
  | none => st
  | some timestamp =>
    st |> ninaBounds timestamp
       |> ninaTarget cs
       |> ninaAfStart timestamp cs
       |> ninaAfInitial cs
       |> ninaAfTrigger cs
       |> ninaAfTemperature cs
       |> ninaAfComplete cs
       |> ninaHfr cs
       |> ninaFilter timestamp cs
       |> ninaExposureStart timestamp cs
       |> ninaSaved cs
       |> ninaPier timestamp cs
       |> ninaRmsAlert timestamp cs
       |> ninaDitherStart timestamp cs
       |> ninaDitherEnd timestamp cs

/-- NINAParser.parse: reset the five event lists (and only those), then
scan all lines (stripped). -/
def NINAParser.parse (p : NINAParser) (lines : List String) : NINAParser :=
  lines.foldl (fun st l => nina_parse_line st (stripWS l.toList))
    { p with autofocus_runs := [], exposures := [], filter_changes := [],
             meridian_flips := [], rms_alerts := [] }

/-! ### Test fixtures -/

/-- A guiding frame with the fields relevant to RMS statistics. -/
def mkFrame (t ra dec : ℚ) : GuidingFrame :=
  { frame := 0, time := t, dx := 0, dy := 0, ra_raw := ra, dec_raw := dec,
    ra_guide := 0, dec_guide := 0, ra_duration := 0, dec_duration := 0,
    ra_direction := "", dec_direction := "", star_mass := 0, snr := 0, error_code := 0 }

/-- An imaging log containing one complete dither event. -/
def ninaLogA : List String :=
  ["2024-01-01T20:00:00.0 SequenceItem Starting Item: Dither",
   "2024-01-01T20:00:05.0 SequenceItem Finishing Item: Dither"]

/-! ### Claims -/

/-- C1: the claim that parse fully resets all accumulated state fails on
NINAParser: parsing log A and then a second (empty) log leaves the dither
events of A in the parser state, unlike a fresh parser that parsed only
the second log.  (NINAParser.parse resets only the five event lists.) -/
theorem C1_reparse_state_leak :
    (NINAParser.parse (NINAParser.parse {} ninaLogA) []).dither_events ≠
      (NINAParser.parse {} ([] : List String)).dither_events := by
  decide

/-- C4 (counterexample): a line beginning with a second-precision
timestamp (no fractional part) is ignored entirely — it does not set the
session bounds and its dither-start marker is not detected, contradicting
the claim that such lines are recognized and processed. -/
theorem C4_counterexample :
    (NINAParser.parse {} ["2024-01-01T20:00:00 SequenceItem Starting Item: Dither"]).session_start
        = none ∧
    (NINAParser.parse {} ["2024-01-01T20:00:00 SequenceItem Starting Item: Dither"]).pending_dither
        = none := by
  constructor <;> decide

/-- C4 (amended): a line whose leading timestamp matches the
second-precision shape but is not followed by a fractional part fails the
timestamp regex (which requires a dot and digits), so _parse_line ignores
the line entirely and leaves the parser state unchanged. -/
theorem C4_amended_no_fraction_ignored (st : NINAParser) (cs rest : List Char) (t : ℚ)
    (hshape : dtMatch 'T' cs = some (t, rest))
    (hnofrac : rest.head? ≠ some '.') :
    nina_parse_line st cs = st := by
  have hts : nina_parse_timestamp cs = none := by
    unfold nina_parse_timestamp
    rw [hshape]
    match rest, hnofrac with
    | [], _ => rfl
    | c :: r, hn =>
      have hc : c ≠ '.' := by
        intro h
        exact hn (by simp [h])
      simp only []
      split
      · rename_i heq
        cases heq
        exact absurd rfl hc
      · rfl
  unfold nina_parse_line
  rw [hts]

/-- C4 (witness for the amended theorem). -/
theorem C4_amended_witness :
    nina_parse_line {} ("2024-01-01T20:00:00".toList) = ({} : NINAParser) :=
  C4_amended_no_fraction_ignored {} _ [] _ rfl (by decide)

/-- An exposure with no qualifying frames is returned untouched. -/
theorem correlateOne_of_empty {sessions : List GuidingSession} {d : Option (List DitherEvent)}
    {m : ℚ} {e : Exposure} (ps : ℚ) (hq : qualifyingFrames sessions d m e = []) :
    correlateOne sessions d m ps e = e := by
  unfold correlateOne
  rw [hq]
  rfl

/-- C9: after correlation, an exposure whose qualifying-frame set is empty
keeps its RMS fields unset (None, not zero) and its guiding-frame count
at 0, provided it came freshly parsed (those fields unset). -/
theorem C9_no_data_stays_none (sessions : List GuidingSession) (es : List Exposure)
    (d : Option (List DitherEvent)) (m : ℚ) (i : ℕ) (h : i < es.length)
    (hra : (es.get ⟨i, h⟩).ra_rms = none) (hdec : (es.get ⟨i, h⟩).dec_rms = none)
    (htot : (es.get ⟨i, h⟩).total_rms = none) (hgf : (es.get ⟨i, h⟩).guiding_frames = 0)
    (hq : qualifyingFrames sessions d m (es.get ⟨i, h⟩) = []) :
    ∃ e, (correlate_guiding_with_exposures sessions es d m)[i]? = some e ∧
      e.ra_rms = none ∧ e.dec_rms = none ∧ e.total_rms = none ∧ e.guiding_frames = 0 := by
  refine ⟨es.get ⟨i, h⟩, ?_, hra, hdec, htot, hgf⟩
  have h1 : (correlate_guiding_with_exposures sessions es d m)[i]? =
      (es[i]?).map (correlateOne sessions d m (firstPixelScale sessions)) := by
    simp [correlate_guiding_with_exposures]
  have h2 : es[i]? = some (es.get ⟨i, h⟩) := by
    simp [List.getElem?_eq_getElem h]
  rw [h1, h2]
  exact congrArg some (correlateOne_of_empty _ hq)

/-- C9 (witness): a fresh exposure with no guiding sessions at all keeps
None RMS fields and zero frame count. -/
theorem C9_witness :
    ∃ e, (correlate_guiding_with_exposures []
        [{ timestamp := 0, exposure_time := 30, filter_name := "L", gain := 0, offset := 0,
           binning := "1x1" }] none 3)[0]? = some e ∧
      e.ra_rms = none ∧ e.dec_rms = none ∧ e.total_rms = none ∧ e.guiding_frames = 0 :=
  C9_no_data_stays_none [] _ none 3 0 (by decide) rfl rfl rfl rfl rfl

/-- C10: the derived RMS properties of a session with no frames are all
0.0 (no exception, no None), whatever the pixel scale; and
get_overall_rms yields (0,0,0) when no frame survives dither exclusion. -/
theorem C10_empty_rms_zero :
    (∀ s : GuidingSession, s.frames = [] →
      s.ra_rms = 0 ∧ s.dec_rms = 0 ∧ s.total_rms = 0) ∧
    (∀ (sessions : List GuidingSession) (d : Option (List DitherEvent)) (m : ℚ),
      overallRaValues sessions d m = [] → get_overall_rms sessions d m = (0, 0, 0)) := by
  constructor
  · intro s h
    refine ⟨?_, ?_, ?_⟩ <;>
      simp [GuidingSession.ra_rms, GuidingSession.dec_rms, GuidingSession.total_rms, h]
  · intro sessions d m h
    simp [get_overall_rms, h]

/-- C10 (witness): a session with the default empty frame list, and an
empty session list for the overall aggregate. -/
theorem C10_witness :
    (({ start_time := 0, pixel_scale := 2 } : GuidingSession).ra_rms = 0 ∧
     ({ start_time := 0, pixel_scale := 2 } : GuidingSession).dec_rms = 0 ∧
     ({ start_time := 0, pixel_scale := 2 } : GuidingSession).total_rms = 0) ∧
    get_overall_rms [] none 3 = (0, 0, 0) :=
  ⟨C10_empty_rms_zero.1 { start_time := 0, pixel_scale := 2 } rfl,
   C10_empty_rms_zero.2 [] none 3 rfl⟩

/-- Unfolding of correlateOne with its let bindings expanded. -/
theorem correlateOne_eq (sessions : List GuidingSession) (d : Option (List DitherEvent))
    (m ps : ℚ) (e : Exposure) :
    correlateOne sessions d m ps e =
      if (qualifyingFrames sessions d m e).map GuidingFrame.ra_raw = [] then e
      else
        { e with
          ra_rms := some (rmsOf ((qualifyingFrames sessions d m e).map GuidingFrame.ra_raw) *
            (ps : ℝ))
          dec_rms := some (rmsOf ((qualifyingFrames sessions d m e).map GuidingFrame.dec_raw) *
            (ps : ℝ))
          total_rms := some (Real.sqrt
            ((rmsOf ((qualifyingFrames sessions d m e).map GuidingFrame.ra_raw) * (ps : ℝ)) ^ 2 +
             (rmsOf ((qualifyingFrames sessions d m e).map GuidingFrame.dec_raw) * (ps : ℝ)) ^ 2))
          guiding_frames := ((qualifyingFrames sessions d m e).map GuidingFrame.ra_raw).length } :=
  rfl

/-- The first session of the C3 input declares pixel scale 2. -/
def c3SessionA : GuidingSession :=
  { start_time := 0, pixel_scale := 2, frames := [mkFrame 0 1 0] }

/-- The second session of the C3 input declares pixel scale 3. -/
def c3SessionB : GuidingSession :=
  { start_time := 0, pixel_scale := 3, frames := [mkFrame 0 1 0] }

/-- C3: the claim that get_overall_rms scales by the pixel scale of the
FIRST session with a nonzero scale fails: with sessions declaring scales
2 and 3 (one unit RA error frame each), the aggregate RA RMS is 3 — the
code's loop has no break and so the LAST nonzero scale wins, although
the first-session scale is 2 (as correlate_guiding_with_exposures, whose
loop does break, confirms). -/
theorem C3_overall_rms_uses_last_scale :
    get_overall_rms [c3SessionA, c3SessionB] none 3 = ((3 : ℝ), 0, 3) ∧
    firstPixelScale [c3SessionA, c3SessionB] = 2 := by
  constructor
  · have hra : overallRaValues [c3SessionA, c3SessionB] none 3 = [1, 1] := by decide
    have hdec : overallDecValues [c3SessionA, c3SessionB] none 3 = [0, 0] := by decide
    have hps : lastPixelScale [c3SessionA, c3SessionB] = 3 := by decide
    have h1 : rmsOf [1, 1] = 1 := by
      simp only [rmsOf, List.map_cons, List.map_nil, List.sum_cons, List.sum_nil,
        List.length_cons, List.length_nil]
      norm_num
    have h0 : rmsOf [0, 0] = 0 := by
      simp only [rmsOf, List.map_cons, List.map_nil, List.sum_cons, List.sum_nil,
        List.length_cons, List.length_nil]
      norm_num
    simp only [get_overall_rms, hra, hdec, hps, h1, h0]
    rw [if_neg (by decide : ¬([1, 1] : List ℚ) = [])]
    norm_num
    rw [show (9 : ℝ) = 3 ^ 2 by norm_num, Real.sqrt_sq (by norm_num : (0 : ℝ) ≤ 3)]
  · decide

/-- The C8 guiding session: frames at 5 s, 15 s and 40 s after the
session start, pixel scale 1. -/
def c8Session : GuidingSession :=
  { start_time := 0, pixel_scale := 1,
    frames := [mkFrame 5 1 2, mkFrame 15 1 2, mkFrame 40 100 100] }

/-- The C8 exposure: starts at the session start, 30 s duration. -/
def c8Exposure : Exposure :=
  { timestamp := 0, exposure_time := 30, filter_name := "L", gain := 0, offset := 0,
    binning := "1x1" }

/-- The exposure record C8 expects after correlation. -/
noncomputable def c8Expected : Exposure :=
  { c8Exposure with
    ra_rms := some 1, dec_rms := some 2,
    total_rms := some (Real.sqrt 5), guiding_frames := 2 }

/-- C8: with an exposure window of [T0, T0+30] and guiding frames at
T0+5, T0+15 and T0+40 (pixel scale 1, no dither), correlation counts 2
guiding frames (the 40 s frame is outside the inclusive window) and the
RMS fields are computed over the first two frames' raw errors only. -/
theorem C8_window_literal_case :
    correlate_guiding_with_exposures [c8Session] [c8Exposure] none 3 = [c8Expected] := by
  have hq : qualifyingFrames [c8Session] none 3 c8Exposure =
      [mkFrame 5 1 2, mkFrame 15 1 2] := by decide
  have hps : firstPixelScale [c8Session] = 1 := by decide
  have h1 : rmsOf [1, 1] = 1 := by
    simp only [rmsOf, List.map_cons, List.map_nil, List.sum_cons, List.sum_nil,
      List.length_cons, List.length_nil]
    norm_num
  have h2 : rmsOf [2, 2] = 2 := by
    simp only [rmsOf, List.map_cons, List.map_nil, List.sum_cons, List.sum_nil,
      List.length_cons, List.length_nil]
    norm_num
    rw [show (4 : ℝ) = 2 ^ 2 by norm_num, Real.sqrt_sq (by norm_num : (0 : ℝ) ≤ 2)]
  simp only [correlate_guiding_with_exposures, List.map_cons, List.map_nil, hps,
    correlateOne_eq, hq, mkFrame]
  rw [if_neg (by decide : ¬([1, 1] : List ℚ) = [])]
  rw [h1, h2]
  simp only [c8Expected, c8Exposure, List.length_cons, List.length_nil]
  norm_num

/-! ### C5: unterminated records are omitted -/

/-- Updating the open session never touches the emitted session list. -/
theorem mapCurrent_sessions (st : PHD2Scan) (f : GuidingSession → GuidingSession) :
    (st.mapCurrent f).sessions = st.sessions := by
  unfold PHD2Scan.mapCurrent
  cases st.current <;> rfl

/-- A line that is not a session-end line never emits a session. -/
theorem phd2Step_sessions (st : PHD2Scan) (l : String)
    (h : litGuidingEnds.isPrefixOf (stripWS l.toList) = false) :
    (phd2Step st l).sessions = st.sessions := by
  simp only [phd2Step]
  repeat' split
  all_goals first
    | rfl
    | (apply mapCurrent_sessions)
    | simp_all

/-- Does a line satisfy the guard of the dither-finish branch? -/
def isDitherFinishLine (cs : List Char) : Bool :=
  containsSub cs ("SequenceItem".toList) && containsSub cs ("Finishing".toList) &&
    containsSub cs ("Item: Dither".toList)

/-- ninaBounds does not touch the dither list. -/
theorem ninaBounds_dither (t : ℚ) (st : NINAParser) :
    (ninaBounds t st).dither_events = st.dither_events := rfl

/-- ninaTarget does not touch the dither list. -/
theorem ninaTarget_dither (cs : List Char) (st : NINAParser) :
    (ninaTarget cs st).dither_events = st.dither_events := by
  unfold ninaTarget
  repeat' split
  all_goals rfl

/-- ninaAfStart does not touch the dither list. -/
theorem ninaAfStart_dither (t : ℚ) (cs : List Char) (st : NINAParser) :
    (ninaAfStart t cs st).dither_events = st.dither_events := by
  unfold ninaAfStart
  repeat' split
  all_goals rfl

/-- ninaAfInitial does not touch the dither list. -/
theorem ninaAfInitial_dither (cs : List Char) (st : NINAParser) :
    (ninaAfInitial cs st).dither_events = st.dither_events := by
  unfold ninaAfInitial
  repeat' split
  all_goals rfl

/-- ninaAfTrigger does not touch the dither list. -/
theorem ninaAfTrigger_dither (cs : List Char) (st : NINAParser) :
    (ninaAfTrigger cs st).dither_events = st.dither_events := by
  unfold ninaAfTrigger
  repeat' split
  all_goals rfl

/-- ninaAfTemperature does not touch the dither list. -/
theorem ninaAfTemperature_dither (cs : List Char) (st : NINAParser) :
    (ninaAfTemperature cs st).dither_events = st.dither_events := by
  unfold ninaAfTemperature
  repeat' split
  all_goals rfl

/-- ninaAfComplete does not touch the dither list. -/
theorem ninaAfComplete_dither (cs : List Char) (st : NINAParser) :
    (ninaAfComplete cs st).dither_events = st.dither_events := by
  unfold ninaAfComplete
  repeat' split
  all_goals rfl

/-- ninaHfr does not touch the dither list. -/
theorem ninaHfr_dither (cs : List Char) (st : NINAParser) :
    (ninaHfr cs st).dither_events = st.dither_events := by
  unfold ninaHfr
  repeat' split
  all_goals rfl

/-- ninaFilter does not touch the dither list. -/
theorem ninaFilter_dither (t : ℚ) (cs : List Char) (st : NINAParser) :
    (ninaFilter t cs st).dither_events = st.dither_events := by
  unfold ninaFilter
  repeat' split
  all_goals rfl

/-- ninaExposureStart does not touch the dither list. -/
theorem ninaExposureStart_dither (t : ℚ) (cs : List Char) (st : NINAParser) :
    (ninaExposureStart t cs st).dither_events = st.dither_events := by
  unfold ninaExposureStart
  repeat' split
  all_goals first
    | rfl
    | (simp only []
       repeat' split
       all_goals rfl)

/-- ninaSaved does not touch the dither list. -/
theorem ninaSaved_dither (cs : List Char) (st : NINAParser) :
    (ninaSaved cs st).dither_events = st.dither_events := by
  unfold ninaSaved
  repeat' split
  all_goals rfl

/-- ninaPier does not touch the dither list. -/
theorem ninaPier_dither (t : ℚ) (cs : List Char) (st : NINAParser) :
    (ninaPier t cs st).dither_events = st.dither_events := by
  unfold ninaPier
  repeat' split
  all_goals first
    | rfl
    | (simp only []
       repeat' split
       all_goals rfl)

/-- ninaRmsAlert does not touch the dither list. -/
theorem ninaRmsAlert_dither (t : ℚ) (cs : List Char) (st : NINAParser) :
    (ninaRmsAlert t cs st).dither_events = st.dither_events := by
  unfold ninaRmsAlert
  repeat' split
  all_goals rfl

/-- ninaDitherStart does not touch the emitted dither list (it only opens
the pending event). -/
theorem ninaDitherStart_dither (t : ℚ) (cs : List Char) (st : NINAParser) :
    (ninaDitherStart t cs st).dither_events = st.dither_events := by
  unfold ninaDitherStart
  repeat' split
  all_goals rfl

/-- ninaDitherEnd leaves the dither list alone on a line that fails its
guard. -/
theorem ninaDitherEnd_dither (t : ℚ) (cs : List Char) (st : NINAParser)
    (h : isDitherFinishLine cs = false) :
    (ninaDitherEnd t cs st).dither_events = st.dither_events := by
  unfold ninaDitherEnd
  simp only [isDitherFinishLine, Bool.and_eq_false_iff] at h
  repeat' split
  all_goals simp_all

/-- A line that is not a dither-finish line never emits a dither event. -/
theorem nina_parse_line_dither (st : NINAParser) (cs : List Char)
    (h : isDitherFinishLine cs = false) :
    (nina_parse_line st cs).dither_events = st.dither_events := by
  unfold nina_parse_line
  cases hts : nina_parse_timestamp cs with
  | none => rfl
  | some t =>
    simp only []
    rw [ninaDitherEnd_dither _ _ _ h, ninaDitherStart_dither, ninaRmsAlert_dither,
      ninaPier_dither, ninaSaved_dither, ninaExposureStart_dither, ninaFilter_dither,
      ninaHfr_dither, ninaAfComplete_dither, ninaAfTemperature_dither, ninaAfTrigger_dither,
      ninaAfInitial_dither, ninaAfStart_dither, ninaTarget_dither, ninaBounds_dither]

/-- Folding the PHD2 step over end-free lines preserves the session list. -/
theorem phd2_foldl_sessions (lines : List String) (st : PHD2Scan)
    (h : ∀ l ∈ lines, litGuidingEnds.isPrefixOf (stripWS l.toList) = false) :
    (lines.foldl phd2Step st).sessions = st.sessions := by
  induction lines generalizing st with
  | nil => rfl
  | cons l ls ih =>
    rw [List.foldl_cons, ih _ fun x hx => h x (List.mem_cons_of_mem _ hx)]
    exact phd2Step_sessions st l (h l (List.mem_cons_self _ _))

/-- Folding the NINA line parser over finish-free lines preserves the
dither list. -/
theorem nina_foldl_dither (lines : List String) (st : NINAParser)
    (h : ∀ l ∈ lines, isDitherFinishLine (stripWS l.toList) = false) :
    (lines.foldl (fun st l => nina_parse_line st (stripWS l.toList)) st).dither_events =
      st.dither_events := by
  induction lines generalizing st with
  | nil => rfl
  | cons l ls ih =>
    rw [List.foldl_cons, ih _ fun x hx => h x (List.mem_cons_of_mem _ hx)]
    exact nina_parse_line_dither st _ (h l (List.mem_cons_self _ _))

/-- C5: a begin marker whose suffix of the log contains no session-end
line contributes no session — the parse of P ++ [begin] ++ S emits
exactly the sessions of P (so a log with one begin and no end yields
zero sessions); and an imaging log with no dither-finish line yields
zero dither events for a fresh parser. -/
theorem C5_unterminated_omission (P S ninaLines : List String) (b : String)
    (hb : litGuidingEnds.isPrefixOf (stripWS b.toList) = false)
    (hS : ∀ l ∈ S, litGuidingEnds.isPrefixOf (stripWS l.toList) = false)
    (h2 : ∀ l ∈ ninaLines, isDitherFinishLine (stripWS l.toList) = false) :
    (PHD2Parser.parse {} (P ++ b :: S)).sessions = (PHD2Parser.parse {} P).sessions ∧
    (NINAParser.parse {} ninaLines).dither_events = [] := by
  constructor
  · unfold PHD2Parser.parse
    simp only [List.foldl_append, List.foldl_cons]
    rw [phd2_foldl_sessions S _ hS]
    exact phd2Step_sessions _ b hb
  · unfold NINAParser.parse
    exact nina_foldl_dither ninaLines _ h2

/-- C5 (witness): a guide log with exactly one begin marker and a frame
line yields zero sessions, and an imaging log with exactly one
dither-start marker yields zero dither events. -/
theorem C5_witness :
    (PHD2Parser.parse {} ["Guiding Begins at 2024-01-01 20:00:00",
      "1,0.5,x,0.1,0.2,0.3,0.4,0.5,0.6,10,E,20,N,0,0,3000,25.5,0"]).sessions =
      (PHD2Parser.parse {} []).sessions ∧
    (NINAParser.parse {}
      ["2024-01-01T20:00:00.0 SequenceItem Starting Item: Dither"]).dither_events = [] :=
  C5_unterminated_omission [] ["1,0.5,x,0.1,0.2,0.3,0.4,0.5,0.6,10,E,20,N,0,0,3000,25.5,0"]
    ["2024-01-01T20:00:00.0 SequenceItem Starting Item: Dither"]
    "Guiding Begins at 2024-01-01 20:00:00" (by decide) (by decide) (by decide)

/-! ### C2: correlation is idempotent -/

/-- correlateOne never changes the exposure start time. -/
theorem correlateOne_timestamp (sessions : List GuidingSession) (d : Option (List DitherEvent))
    (m ps : ℚ) (e : Exposure) : (correlateOne sessions d m ps e).timestamp = e.timestamp := by
  rw [correlateOne_eq]
  split <;> rfl

/-- correlateOne never changes the exposure duration. -/
theorem correlateOne_exposure_time (sessions : List GuidingSession)
    (d : Option (List DitherEvent)) (m ps : ℚ) (e : Exposure) :
    (correlateOne sessions d m ps e).exposure_time = e.exposure_time := by
  rw [correlateOne_eq]
  split <;> rfl

/-- The qualifying frames of an exposure depend only on its time window,
which correlateOne preserves. -/
theorem qualifyingFrames_correlateOne (sessions : List GuidingSession)
    (d : Option (List DitherEvent)) (m ps : ℚ) (e : Exposure) :
    qualifyingFrames sessions d m (correlateOne sessions d m ps e) =
      qualifyingFrames sessions d m e := by
  unfold qualifyingFrames
  simp only [correlateOne_timestamp, correlateOne_exposure_time]

/-- One exposure update is idempotent: the second pass recomputes the
same values from the unchanged time window and overwrites. -/
theorem correlateOne_idem (sessions : List GuidingSession) (d : Option (List DitherEvent))
    (m ps : ℚ) (e : Exposure) :
    correlateOne sessions d m ps (correlateOne sessions d m ps e) =
      correlateOne sessions d m ps e := by
  by_cases hq : (qualifyingFrames sessions d m e).map GuidingFrame.ra_raw = []
  · have he : correlateOne sessions d m ps e = e := by
      rw [correlateOne_eq, if_pos hq]
    rw [he]
    exact he
  · rw [correlateOne_eq sessions d m ps (correlateOne sessions d m ps e),
      qualifyingFrames_correlateOne, if_neg hq]
    rw [correlateOne_eq sessions d m ps e, if_neg hq]

/-- C2: running the correlation a second time on its own output (same
guiding data, dither list and margin) changes nothing — it overwrites
rather than accumulates. -/
theorem C2_correlate_idempotent (sessions : List GuidingSession) (exposures : List Exposure)
    (dither_events : Option (List DitherEvent)) (margin : ℚ) :
    correlate_guiding_with_exposures sessions
        (correlate_guiding_with_exposures sessions exposures dither_events margin)
        dither_events margin =
      correlate_guiding_with_exposures sessions exposures dither_events margin := by
  unfold correlate_guiding_with_exposures
  rw [List.map_map]
  exact List.map_congr_left fun e _ => correlateOne_idem _ _ _ _ e

/-! ### C7: buckets partition the non-excluded frames -/

/-- Fold invariant of the bucket loop: the frames collected in completed
buckets plus the current bucket are exactly the processed non-excluded
frames in order, and completed buckets stay nonempty. -/
theorem bucketStep_foldl_inv (s0 interval : ℚ) (d : Option (List DitherEvent)) (m : ℚ)
    (frames : List GuidingFrame) :
    ∀ st : BucketState,
      (((frames.foldl (bucketStep s0 interval d m) st).completed.map Prod.snd).flatten ++
          (frames.foldl (bucketStep s0 interval d m) st).current =
        (st.completed.map Prod.snd).flatten ++ st.current ++
          frames.filter fun f => !(ditherSkip d m (s0 + f.time))) ∧
      ((∀ b ∈ st.completed, b.2 ≠ []) →
        ∀ b ∈ (frames.foldl (bucketStep s0 interval d m) st).completed, b.2 ≠ []) := by
  induction frames with
  | nil =>
    intro st
    exact ⟨by simp, fun h => h⟩
  | cons f fs ih =>
    intro st
    rw [List.foldl_cons, List.filter_cons]
    by_cases hd : ditherSkip d m (s0 + f.time) = true
    · have hstep : bucketStep s0 interval d m st f = st := by
        unfold bucketStep
        simp only []
        rw [if_pos hd]
      rw [hstep]
      rw [if_neg (by simp [hd])]
      exact ih st
    · replace hd : ditherSkip d m (s0 + f.time) = false := by
        cases h' : ditherSkip d m (s0 + f.time)
        · rfl
        · exact absurd h' hd
      rw [if_pos (by simp [hd])]
      by_cases ht : interval ≤ s0 + f.time - st.bucket_start
      · have hstep : bucketStep s0 interval d m st f =
            ⟨st.completed ++ (if st.current = [] then [] else [(st.bucket_start, st.current)]),
              s0 + f.time, [f]⟩ := by
          unfold bucketStep
          simp only []
          rw [if_neg (by simp [hd]), if_pos ht]

        rw [hstep]
        obtain ⟨ih1, ih2⟩ := ih
          ⟨st.completed ++ (if st.current = [] then [] else [(st.bucket_start, st.current)]),
            s0 + f.time, [f]⟩
        constructor
        · rw [ih1]
          by_cases hc : st.current = []
          · simp [hc]
          · simp [hc, List.flatten_append]
        · intro hall
          apply ih2
          intro b hb
          rcases List.mem_append.mp hb with h | h
          · exact hall b h
          · by_cases hc : st.current = []
            · rw [if_pos hc] at h
              cases h
            · rw [if_neg hc] at h
              simp only [List.mem_singleton] at h
              rw [h]
              simpa using hc
      · have hstep : bucketStep s0 interval d m st f = { st with current := st.current ++ [f] } := by
          unfold bucketStep
          simp only []
          rw [if_neg (by simp [hd]), if_neg ht]
        rw [hstep]
        obtain ⟨ih1, ih2⟩ := ih { st with current := st.current ++ [f] }
        constructor
        · rw [ih1]
          simp [List.append_assoc]
        · intro hall
          exact ih2 hall

/-- C7: for a session with at least one frame and a positive bucket
interval, the emitted buckets partition the session's non-excluded
frames — their concatenation (in order, so no frame is in two buckets)
equals the frame list minus the dither-excluded frames, the trailing
partial bucket included — and no emitted bucket is empty. -/
theorem C7_bucket_partition (s : GuidingSession) (interval : ℚ) (d : Option (List DitherEvent))
    (m : ℚ) (hne : s.frames ≠ []) (hI : 0 < interval) :
    ((sessionBuckets interval d m s).map Prod.snd).flatten = survivingFrames d m s ∧
    ∀ b ∈ sessionBuckets interval d m s, b.2 ≠ [] := by
  obtain ⟨h1, h2⟩ :=
    bucketStep_foldl_inv s.start_time interval d m s.frames ⟨[], s.start_time, []⟩
  simp only [List.map_nil, List.flatten_nil, List.nil_append] at h1
  unfold sessionBuckets survivingFrames
  simp only []
  constructor
  · rw [List.map_append, List.flatten_append]
    by_cases hc :
        (s.frames.foldl (bucketStep s.start_time interval d m) ⟨[], s.start_time, []⟩).current = []
    · rw [hc, List.append_nil] at h1
      rw [if_pos hc]
      simpa using h1
    · rw [if_neg hc]
      simpa using h1
  · intro b hb
    rcases List.mem_append.mp hb with h | h
    · exact h2 (by simp) b h
    · by_cases hc :
          (s.frames.foldl (bucketStep s.start_time interval d m)
            ⟨[], s.start_time, []⟩).current = []
      · rw [if_pos hc] at h
        cases h
      · rw [if_neg hc] at h
        simp only [List.mem_singleton] at h
        rw [h]
        simpa using hc

/-- C7 (witness): the three-frame fixture session with a 60 s interval. -/
theorem C7_witness :
    ((sessionBuckets 60 none 3 c8Session).map Prod.snd).flatten = survivingFrames none 3 c8Session :=
  (C7_bucket_partition c8Session 60 none 3 (by decide) (by norm_num)).1

/-! ### C6: RMS quadrature identity and non-negativity -/

/-- C6: at all three aggregation granularities the total RMS is the
quadrature sum of the RA and Dec RMS, and all RMS values are
non-negative (granted the non-negative pixel scales the parser
produces): for sessions with at least one frame, for every bucket of
get_rms_over_time, and for every exposure given at least one qualifying
frame by correlateOne. -/
theorem C6_quadrature_identity :
    (∀ s : GuidingSession, 0 ≤ s.pixel_scale → s.frames ≠ [] →
      s.total_rms = Real.sqrt (s.ra_rms ^ 2 + s.dec_rms ^ 2) ∧
      0 ≤ s.ra_rms ∧ 0 ≤ s.dec_rms ∧ 0 ≤ s.total_rms) ∧
    (∀ (sessions : List GuidingSession) (interval : ℚ) (d : Option (List DitherEvent)) (m : ℚ),
      (∀ s ∈ sessions, 0 ≤ s.pixel_scale) →
      ∀ r ∈ get_rms_over_time sessions interval d m,
        r.2.2.2 = Real.sqrt (r.2.1 ^ 2 + r.2.2.1 ^ 2) ∧ 0 ≤ r.2.1 ∧ 0 ≤ r.2.2.1 ∧ 0 ≤ r.2.2.2) ∧
    (∀ (sessions : List GuidingSession) (d : Option (List DitherEvent)) (m ps : ℚ)
        (e : Exposure), 0 ≤ ps →
      (qualifyingFrames sessions d m e).map GuidingFrame.ra_raw ≠ [] →
      (correlateOne sessions d m ps e).ra_rms =
        some (rmsOf ((qualifyingFrames sessions d m e).map GuidingFrame.ra_raw) * (ps : ℝ)) ∧
      (correlateOne sessions d m ps e).dec_rms =
        some (rmsOf ((qualifyingFrames sessions d m e).map GuidingFrame.dec_raw) * (ps : ℝ)) ∧
      (correlateOne sessions d m ps e).total_rms = some (Real.sqrt
        ((rmsOf ((qualifyingFrames sessions d m e).map GuidingFrame.ra_raw) * (ps : ℝ)) ^ 2 +
         (rmsOf ((qualifyingFrames sessions d m e).map GuidingFrame.dec_raw) * (ps : ℝ)) ^ 2)) ∧
      0 ≤ rmsOf ((qualifyingFrames sessions d m e).map GuidingFrame.ra_raw) * (ps : ℝ) ∧
      0 ≤ rmsOf ((qualifyingFrames sessions d m e).map GuidingFrame.dec_raw) * (ps : ℝ) ∧
      0 ≤ Real.sqrt
        ((rmsOf ((qualifyingFrames sessions d m e).map GuidingFrame.ra_raw) * (ps : ℝ)) ^ 2 +
         (rmsOf ((qualifyingFrames sessions d m e).map GuidingFrame.dec_raw) * (ps : ℝ)) ^ 2)) := by
  refine ⟨?_, ?_, ?_⟩
  · intro s hps hne
    refine ⟨?_, ?_, ?_, ?_⟩
    · unfold GuidingSession.total_rms
      rw [if_neg hne]
    · unfold GuidingSession.ra_rms
      rw [if_neg hne]
      simp only []
      split
      · exact mul_nonneg (Real.sqrt_nonneg _) (by exact_mod_cast hps)
      · exact Real.sqrt_nonneg _
    · unfold GuidingSession.dec_rms
      rw [if_neg hne]
      simp only []
      split
      · exact mul_nonneg (Real.sqrt_nonneg _) (by exact_mod_cast hps)
      · exact Real.sqrt_nonneg _
    · unfold GuidingSession.total_rms
      rw [if_neg hne]
      exact Real.sqrt_nonneg _
  · intro sessions interval d m hpos r hr
    unfold get_rms_over_time at hr
    simp only [List.mem_flatMap] at hr
    obtain ⟨s, hs, hr⟩ := hr
    by_cases hf : s.frames = []
    · rw [if_pos hf] at hr
      cases hr
    · rw [if_neg hf] at hr
      simp only [List.mem_map] at hr
      obtain ⟨b, hb, rfl⟩ := hr
      have hps : (0 : ℚ) ≤ (if s.pixel_scale ≠ 0 then s.pixel_scale else 1) := by
        split
        · exact hpos s hs
        · norm_num
      unfold bucketEmit
      refine ⟨rfl, ?_, ?_, Real.sqrt_nonneg _⟩
      · exact mul_nonneg (Real.sqrt_nonneg _) (by exact_mod_cast hps)
      · exact mul_nonneg (Real.sqrt_nonneg _) (by exact_mod_cast hps)
  · intro sessions d m ps e hps hq
    rw [correlateOne_eq, if_neg hq]
    refine ⟨rfl, rfl, rfl, ?_, ?_, Real.sqrt_nonneg _⟩
    · exact mul_nonneg (Real.sqrt_nonneg _) (by exact_mod_cast hps)
    · exact mul_nonneg (Real.sqrt_nonneg _) (by exact_mod_cast hps)

/-- The single bucket the C6 witness session produces. -/
noncomputable def c6Bucket : ℚ × ℝ × ℝ × ℝ :=
  bucketEmit 1 (0, [mkFrame 5 1 2, mkFrame 15 1 2, mkFrame 40 100 100])

/-- C6 (witness): the fixture session, its single 60 s bucket, and the
fixture exposure. -/
theorem C6_witness :
    (c8Session.total_rms = Real.sqrt (c8Session.ra_rms ^ 2 + c8Session.dec_rms ^ 2) ∧
      0 ≤ c8Session.ra_rms ∧ 0 ≤ c8Session.dec_rms ∧ 0 ≤ c8Session.total_rms) ∧
    (c6Bucket.2.2.2 = Real.sqrt (c6Bucket.2.1 ^ 2 + c6Bucket.2.2.1 ^ 2) ∧
      0 ≤ c6Bucket.2.1 ∧ 0 ≤ c6Bucket.2.2.1 ∧ 0 ≤ c6Bucket.2.2.2) ∧
    ((correlateOne [c8Session] none 3 1 c8Exposure).ra_rms =
      some (rmsOf ((qualifyingFrames [c8Session] none 3 c8Exposure).map GuidingFrame.ra_raw) *
        ((1 : ℚ) : ℝ)) ∧
     (correlateOne [c8Session] none 3 1 c8Exposure).dec_rms =
      some (rmsOf ((qualifyingFrames [c8Session] none 3 c8Exposure).map GuidingFrame.dec_raw) *
        ((1 : ℚ) : ℝ)) ∧
     (correlateOne [c8Session] none 3 1 c8Exposure).total_rms = some (Real.sqrt
       ((rmsOf ((qualifyingFrames [c8Session] none 3 c8Exposure).map GuidingFrame.ra_raw) *
          ((1 : ℚ) : ℝ)) ^ 2 +
        (rmsOf ((qualifyingFrames [c8Session] none 3 c8Exposure).map GuidingFrame.dec_raw) *
          ((1 : ℚ) : ℝ)) ^ 2)) ∧
     0 ≤ rmsOf ((qualifyingFrames [c8Session] none 3 c8Exposure).map GuidingFrame.ra_raw) *
        ((1 : ℚ) : ℝ) ∧
     0 ≤ rmsOf ((qualifyingFrames [c8Session] none 3 c8Exposure).map GuidingFrame.dec_raw) *
        ((1 : ℚ) : ℝ) ∧
     0 ≤ Real.sqrt
       ((rmsOf ((qualifyingFrames [c8Session] none 3 c8Exposure).map GuidingFrame.ra_raw) *
          ((1 : ℚ) : ℝ)) ^ 2 +
        (rmsOf ((qualifyingFrames [c8Session] none 3 c8Exposure).map GuidingFrame.dec_raw) *
          ((1 : ℚ) : ℝ)) ^ 2)) :=
  ⟨C6_quadrature_identity.1 c8Session (by decide) (by decide),
   C6_quadrature_identity.2.1 [c8Session] 60 none 3 (by decide) c6Bucket (by
      have hb : sessionBuckets 60 none 3 c8Session =
          [(0, [mkFrame 5 1 2, mkFrame 15 1 2, mkFrame 40 100 100])] := by decide
      have hfr : ¬c8Session.frames = [] := by decide
      have hp : (if c8Session.pixel_scale ≠ 0 then c8Session.pixel_scale else (1 : ℚ)) = 1 := by
        decide
      unfold get_rms_over_time c6Bucket
      simp only [List.flatMap_cons, List.flatMap_nil, List.append_nil]
      rw [if_neg hfr]
      rw [hp, hb]
      simp only [List.map_cons, List.map_nil]
      exact List.mem_singleton.mpr rfl),
   C6_quadrature_identity.2.2 [c8Session] none 3 1 c8Exposure (by decide) (by decide)⟩

end AstroSessionViewer
